import Mathlib

/-!
Verification development for the `webapp-testing` example scripts and the
server-supervision launcher they are driven by.

The two scenario scripts (`examples/php_server_testing.py` and
`examples/php_testing_example.py`) are embedded shallowly: each script is a
function from an abstract page environment (titles, links, console messages,
element texts the browser would return) to the ordered list of Playwright
calls it performs.  The launcher (`scripts/with_server.py`) is modelled from
its specification, as the scripts only reference it.
-/

namespace WebappTesting

/-- A console message delivered by the page, as seen by a `page.on("console")`
handler: `msg.type` and `msg.text` in the Python source. -/
structure ConsoleMsg where
  msgType : String
  text : String
  deriving DecidableEq

/-- An `<a href>` element as the scripts read it: `get_attribute('href')` and
`inner_text()`. -/
structure STLink where
  href : String
  innerText : String
  deriving DecidableEq

/-- One Playwright call performed by a scenario script, with the data it
carries.  `goto` also carries the console messages the page emits while it
loads, so that console-handler delivery can be modelled; `clickElem` carries
the element obtained by indexing into a located list (`none` would mean an
out-of-bounds access).  The `print*` constructors are the scripts' print
statements with their dynamic payloads. -/
inductive PWStep where
  | goto (url : String) (msgs : List ConsoleMsg)
  | waitForLoadState (st : String)
  | waitForUrl (pat : String)
  | waitForTimeout (ms : Nat)
  | waitForSelector (sel : String)
  | fill (sel value : String)
  | click (sel : String)
  | clickElem (l : Option STLink)
  | screenshot (path : String) (fullPage : Bool)
  | onConsole
  | printTitle (s : String)
  | printLinkCount (n : Nat)
  | printLinkDetail (text href : String)
  | printClicking (s : String)
  | printNavigated (url : String)
  | printMsg (s : String)
  | printConsoleLogs
  deriving DecidableEq

/-- Page environment for `php_server_testing.py`: what the browser returns at
`http://localhost:8000` (title, links, console messages) and the URL reached
after clicking the first link. -/
structure ServerTestEnv where
  homeTitle : String
  homeLinks : List STLink
  homeMsgs : List ConsoleMsg
  afterClickUrl : String
  deriving DecidableEq

/-- The per-link detail printing loop `for link in links[:5]` of
`php_server_testing.py`: one print of stripped text and href per link, for the
first five links in locator order. -/
def linkDetailSteps (links : List STLink) : List PWStep :=
  (links.take 5).map (fun l => PWStep.printLinkDetail l.innerText.trim l.href)

/-- The `if links:` block of `php_server_testing.py`: only inside the
non-empty guard is `links[0]` read (modelled by `List.get?`); a failed index
read would surface as `clickElem none`. -/
def clickFirstSteps (env : ServerTestEnv) : List PWStep :=
  if env.homeLinks.isEmpty then []
  else
    match env.homeLinks.get? 0 with
    | some first_link =>
      [PWStep.printClicking first_link.innerText,
       PWStep.clickElem (some first_link),
       PWStep.waitForLoadState "networkidle",
       PWStep.printNavigated env.afterClickUrl]
    | none => [PWStep.clickElem none]

/-- `examples/php_server_testing.py`, step by step: navigate to the home page,
print the title, print the link count and the first five link details, click
the first link when one exists, take the screenshot, print completion. -/
def php_server_testing (env : ServerTestEnv) : List PWStep :=
  [PWStep.goto "http://localhost:8000" env.homeMsgs,
   PWStep.waitForLoadState "networkidle",
   PWStep.printTitle env.homeTitle,
   PWStep.printLinkCount env.homeLinks.length]
  ++ linkDetailSteps env.homeLinks
  ++ clickFirstSteps env
  ++ [PWStep.screenshot "/tmp/php_app_test.png" true,
      PWStep.printMsg "\nScreenshot saved to /tmp/php_app_test.png",
      PWStep.printMsg "PHP server testing completed!"]

/-- Page environment for `php_testing_example.py`: the element texts the
script reads, the visibility check of Example 5, and the console messages each
navigated page emits. -/
structure TestingEnv where
  welcomeMessage : String
  apiContent : String
  errorMessage : String
  successMessage : String
  logoutVisible : Bool
  loginMsgs : List ConsoleMsg
  usersMsgs : List ConsoleMsg
  registerMsgs : List ConsoleMsg
  dashboardMsgs : List ConsoleMsg
  profileMsgs : List ConsoleMsg
  deriving DecidableEq

/-- `examples/php_testing_example.py`, step by step: Examples 1-3 (login form,
AJAX endpoint, registration with validation), then registration of the console
handler immediately before the Example 4 navigation to `dashboard.php`, then
Example 5 (`profile.php`) and the final screenshot. -/
def php_testing_example (env : TestingEnv) : List PWStep :=
  [PWStep.goto "http://localhost:8000/login.php" env.loginMsgs,
   PWStep.waitForLoadState "networkidle",
   PWStep.screenshot "/tmp/php_login_page.png" true,
   PWStep.fill "#username" "testuser",
   PWStep.fill "#password" "testpass123",
   PWStep.click "button[type=\"submit\"]",
   PWStep.waitForUrl "**/dashboard.php",
   PWStep.printMsg ("Login successful! Message: " ++ env.welcomeMessage),
   PWStep.goto "http://localhost:8000/api/users.php" env.usersMsgs,
   PWStep.waitForLoadState "networkidle",
   PWStep.printMsg ("API Response: " ++ env.apiContent),
   PWStep.goto "http://localhost:8000/register.php" env.registerMsgs,
   PWStep.waitForLoadState "networkidle",
   PWStep.fill "#email" "invalid-email",
   PWStep.click "button[type=\"submit\"]",
   PWStep.waitForTimeout 500,
   PWStep.printMsg ("Validation error displayed: " ++ env.errorMessage),
   PWStep.fill "#email" "user@example.com",
   PWStep.fill "#username" "newuser",
   PWStep.fill "#password" "SecurePass123!",
   PWStep.click "button[type=\"submit\"]",
   PWStep.waitForSelector ".success-message",
   PWStep.printMsg ("Registration successful: " ++ env.successMessage),
   PWStep.onConsole,
   PWStep.goto "http://localhost:8000/dashboard.php" env.dashboardMsgs,
   PWStep.waitForLoadState "networkidle",
   PWStep.printConsoleLogs,
   PWStep.goto "http://localhost:8000/profile.php" env.profileMsgs,
   PWStep.waitForLoadState "networkidle",
   PWStep.printMsg (if env.logoutVisible then "Session maintained - user still logged in"
                    else "Session lost - user logged out"),
   PWStep.screenshot "/tmp/php_profile_page.png" true,
   PWStep.printMsg "\nPHP application testing completed!"]

/-- The formatted entry `f"[{msg.type}] {msg.text}"` appended by
`handle_console`. -/
def formatConsoleMsg (m : ConsoleMsg) : String :=
  "[" ++ m.msgType ++ "] " ++ m.text

/-- The registered handler `handle_console` of `php_testing_example.py`: it
appends exactly one formatted entry to `console_logs`. -/
def handle_console (msg : ConsoleMsg) (logs : List String) : List String :=
  logs ++ [formatConsoleMsg msg]

/-- Mutable state threaded through a scenario run: whether a console handler
has been registered by `page.on("console", ...)`, and the `console_logs`
list. -/
structure PWState where
  handlerOn : Bool
  console_logs : List String
  deriving DecidableEq

/-- Initial scenario state: no handler registered, `console_logs = []`. -/
def initPWState : PWState := ⟨false, []⟩

/-- Delivery of a page's console messages: each message is passed to the
registered handler in arrival order; with no handler registered the messages
are dropped. -/
def deliverMsgs (handlerOn : Bool) (msgs : List ConsoleMsg) (logs : List String) :
    List String :=
  if handlerOn then msgs.foldl (fun acc m => handle_console m acc) logs else logs

/-- Effect of one script step on the console state: a navigation delivers the
page's console messages, `page.on("console", handle_console)` turns the
handler on, every other call leaves the state unchanged. -/
def stepPW (s : PWState) : PWStep → PWState
  | PWStep.goto _ msgs => { s with console_logs := deliverMsgs s.handlerOn msgs s.console_logs }
  | PWStep.onConsole => { s with handlerOn := true }
  | _ => s

/-- Run a list of script steps from a state. -/
def runPW (steps : List PWStep) (s : PWState) : PWState :=
  steps.foldl stepPW s

/-- Is this step a click on a missing element (an out-of-bounds index read)? -/
def isNoneClick : PWStep → Bool
  | PWStep.clickElem none => true
  | _ => false

/-- The URLs a script navigates to, in order. -/
def gotoUrls (steps : List PWStep) : List String :=
  steps.filterMap (fun st => match st with
    | PWStep.goto u _ => some u
    | _ => none)

/-- The screenshot file paths a script writes, in order. -/
def screenshotPaths (steps : List PWStep) : List String :=
  steps.filterMap (fun st => match st with
    | PWStep.screenshot p _ => some p
    | _ => none)

/-- The link counts a script prints. -/
def printedLinkCounts (steps : List PWStep) : List Nat :=
  steps.filterMap (fun st => match st with
    | PWStep.printLinkCount n => some n
    | _ => none)

/-- The (stripped text, href) pairs of the per-link detail prints, in order. -/
def printedLinkDetails (steps : List PWStep) : List (String × String) :=
  steps.filterMap (fun st => match st with
    | PWStep.printLinkDetail t h => some (t, h)
    | _ => none)

end WebappTesting

namespace WithServer

/-- Modelled from the spec: `scripts/with_server.py` (referenced by both
example scripts but not present in the sources).  Launcher inputs: server
command string, target port, readiness timeout, polling interval, and the
grace period between graceful terminate and force-kill. -/
structure LauncherConfig where
  serverCmd : String
  port : Nat
  timeout : Nat
  pollInterval : Nat
  gracePeriod : Nat
  deriving DecidableEq

/-- Modelled from the spec: the environment one launcher run executes in —
whether the server command can be spawned, the time at which the server would
start accepting connections on the port (`none` = never), the test command's
exit code and duration, the time of an external interrupt signal (`none` =
no interrupt), and whether each child dies on the graceful termination signal
(`false` = only the force-kill after the grace period removes it). -/
structure LauncherEnv where
  spawnOk : Bool
  readyAt : Option Nat
  testExitCode : Nat
  testDuration : Nat
  interruptAt : Option Nat
  serverDiesGracefully : Bool
  testDiesGracefully : Bool
  deriving DecidableEq

/-- Observable events of one launcher run. -/
inductive LEvent where
  | serverSpawn
  | portReady
  | testStart
  | testExited (code : Nat)
  | sigtermTest
  | forceKillTest
  | testDead
  | sigtermServerGroup
  | forceKillServer
  | serverDead
  | launcherExit (code : Nat)
  deriving DecidableEq

/-- A time-stamped event trace of one launcher run. -/
abbrev Trace := List (Nat × LEvent)

/-- Modelled from the spec: the reserved distinct exit code for
readiness-timeout and launch failures (the spec suggests 2). -/
def reservedCode : Nat := 2

/-- Modelled from the spec: the exit code reported after an external
interrupt (`InterruptedDuringRun`), distinct from the reserved failure
code. -/
def interruptCode : Nat := 130

/-- Is the port accepting connections at time `t`? -/
def portOpenAt (readyAt : Option Nat) (t : Nat) : Bool :=
  match readyAt with
  | some r => decide (r ≤ t)
  | none => false

/-- Modelled from the spec: the readiness poll loop.  Starting at time `t`,
try a TCP connect; on success return `(true, t)`; otherwise, if the timeout
has elapsed, give up with `(false, t)`; otherwise sleep one polling interval
and retry.  `fuel` bounds the recursion; `timeout + 1` polls suffice whenever
the interval is positive. -/
def pollFrom (timeout interval : Nat) (readyAt : Option Nat) :
    Nat → Nat → Bool × Nat
  | 0, t => (portOpenAt readyAt t, t)
  | Nat.succ fuel, t =>
    if portOpenAt readyAt t then (true, t)
    else if timeout ≤ t then (false, t)
    else pollFrom timeout interval readyAt fuel (t + interval)

/-- Modelled from the spec: releasing the server resource at time `t` — send
a termination signal to the server's process group; a cooperative server dies
at once, otherwise the launcher waits the grace period and force-kills. -/
def cleanupTrace (grace : Nat) (graceful : Bool) (t : Nat) : Trace :=
  if graceful then [(t, LEvent.sigtermServerGroup), (t, LEvent.serverDead)]
  else [(t, LEvent.sigtermServerGroup), (t + grace, LEvent.forceKillServer),
        (t + grace, LEvent.serverDead)]

/-- The time at which the cleanup started at `t` completes. -/
def cleanupEnd (grace : Nat) (graceful : Bool) (t : Nat) : Nat :=
  if graceful then t else t + grace

/-- Modelled from the spec: terminating the running test command at time `t`
after an interrupt, with the same terminate-then-force-kill escalation. -/
def testKillTrace (grace : Nat) (graceful : Bool) (t : Nat) : Trace :=
  if graceful then [(t, LEvent.sigtermTest), (t, LEvent.testDead)]
  else [(t, LEvent.sigtermTest), (t + grace, LEvent.forceKillTest),
        (t + grace, LEvent.testDead)]

/-- The time at which the test-kill started at `t` completes. -/
def testKillEnd (grace : Nat) (graceful : Bool) (t : Nat) : Nat :=
  if graceful then t else t + grace

/-- Timeout path: the poll loop gave up at `tFail`; kill the
partially-started server group and exit with the reserved code, without ever
starting the test command. -/
def timeoutPath (cfg : LauncherConfig) (env : LauncherEnv) (tFail : Nat) : Trace :=
  (0, LEvent.serverSpawn) ::
    cleanupTrace cfg.gracePeriod env.serverDiesGracefully tFail
  ++ [(cleanupEnd cfg.gracePeriod env.serverDiesGracefully tFail,
       LEvent.launcherExit reservedCode)]

/-- Interrupt before the test command started (during `ServerStarting`):
release the server and exit. -/
def earlyInterruptPath (cfg : LauncherConfig) (env : LauncherEnv) (ti : Nat) : Trace :=
  (0, LEvent.serverSpawn) ::
    cleanupTrace cfg.gracePeriod env.serverDiesGracefully ti
  ++ [(cleanupEnd cfg.gracePeriod env.serverDiesGracefully ti,
       LEvent.launcherExit interruptCode)]

/-- Interrupt during `TestRunning` at time `ti`: cascade termination to both
children (test command and server group), then exit once both are gone. -/
def testInterruptPath (cfg : LauncherConfig) (env : LauncherEnv)
    (tReady ti : Nat) : Trace :=
  [(0, LEvent.serverSpawn), (tReady, LEvent.portReady), (tReady, LEvent.testStart)]
  ++ testKillTrace cfg.gracePeriod env.testDiesGracefully ti
  ++ cleanupTrace cfg.gracePeriod env.serverDiesGracefully ti
  ++ [(max (testKillEnd cfg.gracePeriod env.testDiesGracefully ti)
           (cleanupEnd cfg.gracePeriod env.serverDiesGracefully ti),
       LEvent.launcherExit interruptCode)]

/-- Normal path: the port became ready at `tReady`, the test command ran to
completion; release the server and propagate the test command's exit code. -/
def normalPath (cfg : LauncherConfig) (env : LauncherEnv) (tReady : Nat) : Trace :=
  [(0, LEvent.serverSpawn), (tReady, LEvent.portReady), (tReady, LEvent.testStart),
   (tReady + env.testDuration, LEvent.testExited env.testExitCode)]
  ++ cleanupTrace cfg.gracePeriod env.serverDiesGracefully (tReady + env.testDuration)
  ++ [(cleanupEnd cfg.gracePeriod env.serverDiesGracefully (tReady + env.testDuration),
       LEvent.launcherExit env.testExitCode)]

/-- Modelled from the spec: one full run of the `with_server.py` launcher.
Spawn the server as a new process group (failure to spawn exits at once with
the reserved code); poll the port; on poll failure kill the server group and
exit with the reserved code; on readiness run the test command and propagate
its exit code; an external interrupt at any point cascades termination to all
live children before the launcher exits. -/
def runLauncher (cfg : LauncherConfig) (env : LauncherEnv) : Trace :=
  if env.spawnOk = false then [(0, LEvent.launcherExit reservedCode)]
  else
    match pollFrom cfg.timeout cfg.pollInterval env.readyAt (cfg.timeout + 1) 0 with
    | (false, tFail) =>
      match env.interruptAt with
      | some ti =>
        if ti < tFail then earlyInterruptPath cfg env ti
        else timeoutPath cfg env tFail
      | none => timeoutPath cfg env tFail
    | (true, tReady) =>
      match env.interruptAt with
      | some ti =>
        if ti < tReady then earlyInterruptPath cfg env ti
        else if ti < tReady + env.testDuration then testInterruptPath cfg env tReady ti
        else normalPath cfg env tReady
      | none => normalPath cfg env tReady

/-- Event classifiers used by the trace properties. -/
def isServerSpawn : LEvent → Bool
  | LEvent.serverSpawn => true
  | _ => false

def isServerDead : LEvent → Bool
  | LEvent.serverDead => true
  | _ => false

def isLauncherExit : LEvent → Bool
  | LEvent.launcherExit _ => true
  | _ => false

def isTestExited : LEvent → Bool
  | LEvent.testExited _ => true
  | _ => false

def isTestDead : LEvent → Bool
  | LEvent.testDead => true
  | _ => false

def isSigtermTest : LEvent → Bool
  | LEvent.sigtermTest => true
  | _ => false

def isSigtermServer : LEvent → Bool
  | LEvent.sigtermServerGroup => true
  | _ => false

/-- Any event of the test command's life (the scenario's execution window). -/
def isTestEvent : LEvent → Bool
  | LEvent.testStart => true
  | LEvent.testExited _ => true
  | LEvent.sigtermTest => true
  | LEvent.forceKillTest => true
  | LEvent.testDead => true
  | _ => false

/-- Every `p`-event of the trace occurs strictly before every `q`-event. -/
def allBefore (p q : LEvent → Bool) : Trace → Bool
  | [] => true
  | te :: rest =>
    (if q te.2 then rest.all (fun x => !(p x.2)) else true) && allBefore p q rest

/-- The launcher's exit code, read off the trace. -/
def launcherExitCode (tr : Trace) : Option Nat :=
  tr.findSome? (fun te => match te.2 with
    | LEvent.launcherExit c => some c
    | _ => none)

/-- The time of the launcher's exit, read off the trace. -/
def launcherExitTime (tr : Trace) : Option Nat :=
  tr.findSome? (fun te => match te.2 with
    | LEvent.launcherExit _ => some te.1
    | _ => none)

/-- The time the server process is gone, read off the trace. -/
def serverDeadTime (tr : Trace) : Option Nat :=
  tr.findSome? (fun te => match te.2 with
    | LEvent.serverDead => some te.1
    | _ => none)

/-- The time the test command process is gone after a kill, read off the
trace. -/
def testDeadTime (tr : Trace) : Option Nat :=
  tr.findSome? (fun te => match te.2 with
    | LEvent.testDead => some te.1
    | _ => none)

/-- The time the server was spawned, read off the trace. -/
def serverSpawnTime (tr : Trace) : Option Nat :=
  tr.findSome? (fun te => match te.2 with
    | LEvent.serverSpawn => some te.1
    | _ => none)

/-- The time the test command started, read off the trace. -/
def testStartTime (tr : Trace) : Option Nat :=
  tr.findSome? (fun te => match te.2 with
    | LEvent.testStart => some te.1
    | _ => none)

/-- The time the scenario's execution window closes: the test command's own
exit, or its death after a kill, whichever the trace records first. -/
def testEndTime (tr : Trace) : Option Nat :=
  tr.findSome? (fun te => match te.2 with
    | LEvent.testExited _ => some te.1
    | LEvent.testDead => some te.1
    | _ => none)

/-- The structural (trace-order) lifecycle invariant of one run: if the
server was spawned it is dead by the end; in list position — not in
timestamps, which `serverDead_le_launcherExit` and the containment theorems
compare separately — the spawn precedes every event of the test command's
life, those precede the server's death, the server's death precedes the
launcher's exit, and the launcher does exit. -/
def lifecycleOk (tr : Trace) : Bool :=
  (!(tr.any (fun te => isServerSpawn te.2)) || tr.any (fun te => isServerDead te.2))
  && allBefore isServerSpawn isTestEvent tr
  && allBefore isTestEvent isServerDead tr
  && allBefore isServerDead isLauncherExit tr
  && tr.any (fun te => isLauncherExit te.2)

/-- Modelled from the spec: the launcher's failure taxonomy —
`ServerLaunchFailure`, `ServerStartTimeout`, `InterruptedDuringRun`, or
completion of the test command with its exit code. -/
inductive LauncherOutcome where
  | launchFailure
  | startTimeout
  | interrupted
  | testCompleted (code : Nat)
  deriving DecidableEq

/-- The exit code each outcome is surfaced as: the reserved code for launch
failure and readiness timeout, the interrupt code for an interrupt, and the
test command's own code when it ran. -/
def outcomeCode : LauncherOutcome → Nat
  | LauncherOutcome.launchFailure => reservedCode
  | LauncherOutcome.startTimeout => reservedCode
  | LauncherOutcome.interrupted => interruptCode
  | LauncherOutcome.testCompleted c => c

/-- The outcome of a launcher run, by the same dispatch as `runLauncher`. -/
def launcherOutcome (cfg : LauncherConfig) (env : LauncherEnv) : LauncherOutcome :=
  if env.spawnOk = false then LauncherOutcome.launchFailure
  else
    match pollFrom cfg.timeout cfg.pollInterval env.readyAt (cfg.timeout + 1) 0 with
    | (false, tFail) =>
      match env.interruptAt with
      | some ti =>
        if ti < tFail then LauncherOutcome.interrupted
        else LauncherOutcome.startTimeout
      | none => LauncherOutcome.startTimeout
    | (true, tReady) =>
      match env.interruptAt with
      | some ti =>
        if ti < tReady then LauncherOutcome.interrupted
        else if ti < tReady + env.testDuration then LauncherOutcome.interrupted
        else LauncherOutcome.testCompleted env.testExitCode
      | none => LauncherOutcome.testCompleted env.testExitCode

/-- Is the server process still alive at the end of a trace (spawned but
never recorded dead)?  A leaked server is exactly this. -/
def serverAliveAfter (tr : Trace) : Bool :=
  tr.any (fun te => isServerSpawn te.2) && !(tr.any (fun te => isServerDead te.2))

/-- The OS-level state the launcher leaves behind: whether the target port
is still held and whether a server process is still running. -/
structure World where
  portBusy : Bool
  orphanServer : Bool
  deriving DecidableEq

/-- The state with the port free and no leftover process. -/
def cleanWorld : World := ⟨false, false⟩

/-- The run environment as distorted by leftover state: a busy port means
the new server can never bind and open it. -/
def envInWorld (env : LauncherEnv) (w : World) : LauncherEnv :=
  if w.portBusy then { env with readyAt := none } else env

/-- A launcher run inside a world: the trace it produces and the world it
leaves (a leftover server holds the port only if it had opened it). -/
def runLauncherW (cfg : LauncherConfig) (env : LauncherEnv) (w : World) :
    Trace × World :=
  (runLauncher cfg (envInWorld env w),
   { portBusy := serverAliveAfter (runLauncher cfg (envInWorld env w))
       && (runLauncher cfg (envInWorld env w)).any
            (fun te => te.2 = LEvent.portReady),
     orphanServer := serverAliveAfter (runLauncher cfg (envInWorld env w)) })

/-- A poll run with enough fuel is decisive: it either succeeds at a time
where the port is open, or gives up at a time past the timeout with the port
still closed.  `timeout ≤ t + fuel * interval` is the fuel budget. -/
theorem pollFrom_proper (timeout interval : Nat) (readyAt : Option Nat) :
    ∀ fuel t, timeout ≤ t + fuel * interval →
      ((pollFrom timeout interval readyAt fuel t).1 = true
         ∧ portOpenAt readyAt (pollFrom timeout interval readyAt fuel t).2 = true)
      ∨ ((pollFrom timeout interval readyAt fuel t).1 = false
         ∧ timeout ≤ (pollFrom timeout interval readyAt fuel t).2
         ∧ portOpenAt readyAt (pollFrom timeout interval readyAt fuel t).2 = false) := by
  intro fuel
  induction fuel with
  | zero =>
    intro t h
    simp only [Nat.zero_mul, Nat.add_zero] at h
    cases hp : portOpenAt readyAt t with
    | true => left; simp [pollFrom, hp]
    | false => right; simp [pollFrom, hp, h]
  | succ fuel ih =>
    intro t h
    by_cases hp : portOpenAt readyAt t = true
    · left; simp [pollFrom, hp]
    · rw [Bool.not_eq_true] at hp
      by_cases ht : timeout ≤ t
      · right; simp [pollFrom, hp, ht]
      · have h2 : timeout ≤ (t + interval) + fuel * interval := by
          have ha := Nat.add_mul fuel 1 interval
          have hb := Nat.one_mul interval
          omega
        have := ih (t + interval) h2
        simpa [pollFrom, hp, ht] using this

/-- The poll loop never reports a time at or past `timeout + interval` when
started before that bound. -/
theorem pollFrom_time_lt (timeout interval : Nat) (readyAt : Option Nat) :
    ∀ fuel t, t < timeout + interval →
      (pollFrom timeout interval readyAt fuel t).2 < timeout + interval := by
  intro fuel
  induction fuel with
  | zero => intro t h; simpa [pollFrom] using h
  | succ fuel ih =>
    intro t h
    by_cases hp : portOpenAt readyAt t = true
    · simpa [pollFrom, hp] using h
    · rw [Bool.not_eq_true] at hp
      by_cases ht : timeout ≤ t
      · simpa [pollFrom, hp, ht] using h
      · have h2 : t + interval < timeout + interval := by omega
        have := ih (t + interval) h2
        simpa [pollFrom, hp, ht] using this

/-- A server that never opens the port never satisfies the probe. -/
theorem pollFrom_never_ready (timeout interval : Nat) :
    ∀ fuel t, (pollFrom timeout interval none fuel t).1 = false := by
  intro fuel
  induction fuel with
  | zero => intro t; simp [pollFrom, portOpenAt]
  | succ fuel ih =>
    intro t
    by_cases ht : timeout ≤ t
    · simp [pollFrom, portOpenAt, ht]
    · simpa [pollFrom, portOpenAt, ht] using ih (t + interval)

/-- `timeout + 1` units of fuel are a sufficient budget when the polling
interval is positive. -/
theorem fuel_sufficient (timeout interval : Nat) (h : 1 ≤ interval) :
    timeout ≤ 0 + (timeout + 1) * interval := by
  have h1 : (timeout + 1) * 1 ≤ (timeout + 1) * interval :=
    Nat.mul_le_mul_left (timeout + 1) h
  have h2 : (timeout + 1) * 1 = timeout + 1 := by ring
  omega

/-- A poll against a port that opens by the deadline succeeds, at a time no
earlier than the port's opening. -/
theorem pollFrom_ready_succeeds (timeout interval r : Nat)
    (hr : r ≤ timeout) (hi : 1 ≤ interval) :
    (pollFrom timeout interval (some r) (timeout + 1) 0).1 = true
    ∧ r ≤ (pollFrom timeout interval (some r) (timeout + 1) 0).2 := by
  have hproper := pollFrom_proper timeout interval (some r) (timeout + 1) 0
    (fuel_sufficient timeout interval hi)
  rcases hproper with ⟨h1, h2⟩ | ⟨_, h2, h3⟩
  · exact ⟨h1, by simpa [portOpenAt] using h2⟩
  · exfalso
    have : r ≤ (pollFrom timeout interval (some r) (timeout + 1) 0).2 := le_trans hr h2
    simp [portOpenAt, this] at h3

/-- Exit code of the timeout path: always the reserved code. -/
theorem launcherExitCode_timeoutPath (cfg : LauncherConfig) (env : LauncherEnv)
    (tFail : Nat) :
    launcherExitCode (timeoutPath cfg env tFail) = some reservedCode := by
  cases hg : env.serverDiesGracefully <;>
    simp [timeoutPath, cleanupTrace, launcherExitCode, hg]

/-- Exit time of the timeout path: the end of the server cleanup. -/
theorem launcherExitTime_timeoutPath (cfg : LauncherConfig) (env : LauncherEnv)
    (tFail : Nat) :
    launcherExitTime (timeoutPath cfg env tFail)
      = some (cleanupEnd cfg.gracePeriod env.serverDiesGracefully tFail) := by
  cases hg : env.serverDiesGracefully <;>
    simp [timeoutPath, cleanupTrace, cleanupEnd, launcherExitTime, hg]

/-- Server-death time of the timeout path: the end of the server cleanup. -/
theorem serverDeadTime_timeoutPath (cfg : LauncherConfig) (env : LauncherEnv)
    (tFail : Nat) :
    serverDeadTime (timeoutPath cfg env tFail)
      = some (cleanupEnd cfg.gracePeriod env.serverDiesGracefully tFail) := by
  cases hg : env.serverDiesGracefully <;>
    simp [timeoutPath, cleanupTrace, cleanupEnd, serverDeadTime, hg]

/-- The timeout path never contains an event of the test command's life. -/
theorem noTestEvents_timeoutPath (cfg : LauncherConfig) (env : LauncherEnv)
    (tFail : Nat) :
    (timeoutPath cfg env tFail).all (fun te => !(isTestEvent te.2)) = true := by
  cases hg : env.serverDiesGracefully <;>
    simp [timeoutPath, cleanupTrace, isTestEvent, hg]

/-- The cleanup completes no earlier than its start and within the grace
period of its start. -/
theorem cleanupEnd_bounds (grace : Nat) (graceful : Bool) (t : Nat) :
    t ≤ cleanupEnd grace graceful t ∧ cleanupEnd grace graceful t ≤ t + grace := by
  cases graceful <;> simp [cleanupEnd]

/-- The test-kill completes no earlier than its start and within the grace
period of its start. -/
theorem testKillEnd_bounds (grace : Nat) (graceful : Bool) (t : Nat) :
    t ≤ testKillEnd grace graceful t ∧ testKillEnd grace graceful t ≤ t + grace := by
  cases graceful <;> simp [testKillEnd]

/-- Exit code of the normal path: the test command's exit code. -/
theorem launcherExitCode_normalPath (cfg : LauncherConfig) (env : LauncherEnv)
    (tReady : Nat) :
    launcherExitCode (normalPath cfg env tReady) = some env.testExitCode := by
  cases hg : env.serverDiesGracefully <;>
    simp [normalPath, cleanupTrace, launcherExitCode, hg]

/-- The normal path records the test command's own exit event. -/
theorem testExited_normalPath (cfg : LauncherConfig) (env : LauncherEnv)
    (tReady : Nat) :
    (normalPath cfg env tReady).any (fun te => isTestExited te.2) = true := by
  cases hg : env.serverDiesGracefully <;>
    simp [normalPath, cleanupTrace, isTestExited, hg]

/-- Exit code of an interrupt before the test command started. -/
theorem launcherExitCode_earlyInterruptPath (cfg : LauncherConfig)
    (env : LauncherEnv) (ti : Nat) :
    launcherExitCode (earlyInterruptPath cfg env ti) = some interruptCode := by
  cases hg : env.serverDiesGracefully <;>
    simp [earlyInterruptPath, cleanupTrace, launcherExitCode, hg]

/-- Exit code of an interrupt during `TestRunning`. -/
theorem launcherExitCode_testInterruptPath (cfg : LauncherConfig)
    (env : LauncherEnv) (tReady ti : Nat) :
    launcherExitCode (testInterruptPath cfg env tReady ti) = some interruptCode := by
  cases hg : env.serverDiesGracefully <;> cases hgt : env.testDiesGracefully <;>
    simp [testInterruptPath, cleanupTrace, testKillTrace, launcherExitCode, hg, hgt]

/-- Time the test command is gone on the interrupt-during-test path. -/
theorem testDeadTime_testInterruptPath (cfg : LauncherConfig)
    (env : LauncherEnv) (tReady ti : Nat) :
    testDeadTime (testInterruptPath cfg env tReady ti)
      = some (testKillEnd cfg.gracePeriod env.testDiesGracefully ti) := by
  cases hg : env.serverDiesGracefully <;> cases hgt : env.testDiesGracefully <;>
    simp [testInterruptPath, cleanupTrace, testKillTrace, testKillEnd, testDeadTime,
      hg, hgt]

/-- Time the server is gone on the interrupt-during-test path. -/
theorem serverDeadTime_testInterruptPath (cfg : LauncherConfig)
    (env : LauncherEnv) (tReady ti : Nat) :
    serverDeadTime (testInterruptPath cfg env tReady ti)
      = some (cleanupEnd cfg.gracePeriod env.serverDiesGracefully ti) := by
  cases hg : env.serverDiesGracefully <;> cases hgt : env.testDiesGracefully <;>
    simp [testInterruptPath, cleanupTrace, testKillTrace, cleanupEnd, serverDeadTime,
      hg, hgt]

/-- Both children receive the termination signal on the
interrupt-during-test path. -/
theorem sigterms_testInterruptPath (cfg : LauncherConfig)
    (env : LauncherEnv) (tReady ti : Nat) :
    (testInterruptPath cfg env tReady ti).any (fun te => isSigtermTest te.2) = true
    ∧ (testInterruptPath cfg env tReady ti).any (fun te => isSigtermServer te.2)
        = true := by
  cases hg : env.serverDiesGracefully <;> cases hgt : env.testDiesGracefully <;>
    simp [testInterruptPath, cleanupTrace, testKillTrace, isSigtermTest,
      isSigtermServer, hg, hgt]

/-- On the interrupt-during-test path both children's death events strictly
precede the launcher's exit event. -/
theorem deaths_before_exit_testInterruptPath (cfg : LauncherConfig)
    (env : LauncherEnv) (tReady ti : Nat) :
    allBefore isTestDead isLauncherExit (testInterruptPath cfg env tReady ti) = true
    ∧ allBefore isServerDead isLauncherExit (testInterruptPath cfg env tReady ti)
        = true := by
  cases hg : env.serverDiesGracefully <;> cases hgt : env.testDiesGracefully <;>
    simp [testInterruptPath, cleanupTrace, testKillTrace, allBefore, isTestDead,
      isServerDead, isLauncherExit, hg, hgt]

/-- The lifecycle invariant holds on the timeout path. -/
theorem lifecycleOk_timeoutPath (cfg : LauncherConfig) (env : LauncherEnv)
    (tFail : Nat) : lifecycleOk (timeoutPath cfg env tFail) = true := by
  cases hg : env.serverDiesGracefully <;>
    simp [timeoutPath, cleanupTrace, lifecycleOk, allBefore, isServerSpawn,
      isServerDead, isLauncherExit, isTestEvent, hg]

/-- The lifecycle invariant holds on the early-interrupt path. -/
theorem lifecycleOk_earlyInterruptPath (cfg : LauncherConfig) (env : LauncherEnv)
    (ti : Nat) : lifecycleOk (earlyInterruptPath cfg env ti) = true := by
  cases hg : env.serverDiesGracefully <;>
    simp [earlyInterruptPath, cleanupTrace, lifecycleOk, allBefore, isServerSpawn,
      isServerDead, isLauncherExit, isTestEvent, hg]

/-- The lifecycle invariant holds on the interrupt-during-test path. -/
theorem lifecycleOk_testInterruptPath (cfg : LauncherConfig) (env : LauncherEnv)
    (tReady ti : Nat) : lifecycleOk (testInterruptPath cfg env tReady ti) = true := by
  cases hg : env.serverDiesGracefully <;> cases hgt : env.testDiesGracefully <;>
    simp [testInterruptPath, cleanupTrace, testKillTrace, lifecycleOk, allBefore,
      isServerSpawn, isServerDead, isLauncherExit, isTestEvent, hg, hgt]

/-- The lifecycle invariant holds on the normal path. -/
theorem lifecycleOk_normalPath (cfg : LauncherConfig) (env : LauncherEnv)
    (tReady : Nat) : lifecycleOk (normalPath cfg env tReady) = true := by
  cases hg : env.serverDiesGracefully <;>
    simp [normalPath, cleanupTrace, lifecycleOk, allBefore, isServerSpawn,
      isServerDead, isLauncherExit, isTestEvent, hg]

/-- The lifecycle invariant holds on every launcher run, whatever the exit
path. -/
theorem lifecycleOk_runLauncher (cfg : LauncherConfig) (env : LauncherEnv) :
    lifecycleOk (runLauncher cfg env) = true := by
  unfold runLauncher
  cases hs : env.spawnOk with
  | false =>
    simp [lifecycleOk, allBefore, isServerSpawn, isServerDead, isLauncherExit,
      isTestEvent]
  | true =>
    simp only [Bool.true_eq_false, if_false]
    rcases hq : pollFrom cfg.timeout cfg.pollInterval env.readyAt (cfg.timeout + 1) 0
      with ⟨b, tR⟩
    cases b with
    | false =>
      cases hi : env.interruptAt with
      | none => exact lifecycleOk_timeoutPath cfg env tR
      | some ti =>
        by_cases hlt : ti < tR
        · simp only [if_pos hlt]; exact lifecycleOk_earlyInterruptPath cfg env ti
        · simp only [if_neg hlt]; exact lifecycleOk_timeoutPath cfg env tR
    | true =>
      cases hi : env.interruptAt with
      | none => exact lifecycleOk_normalPath cfg env tR
      | some ti =>
        by_cases hlt : ti < tR
        · simp only [if_pos hlt]; exact lifecycleOk_earlyInterruptPath cfg env ti
        · simp only [if_neg hlt]
          by_cases hlt2 : ti < tR + env.testDuration
          · simp only [if_pos hlt2]; exact lifecycleOk_testInterruptPath cfg env tR ti
          · simp only [if_neg hlt2]; exact lifecycleOk_normalPath cfg env tR

/-- Every run exits with the code of its outcome. -/
theorem launcherExitCode_eq_outcomeCode (cfg : LauncherConfig) (env : LauncherEnv) :
    launcherExitCode (runLauncher cfg env)
      = some (outcomeCode (launcherOutcome cfg env)) := by
  unfold runLauncher launcherOutcome
  cases hs : env.spawnOk with
  | false => simp [launcherExitCode, outcomeCode]
  | true =>
    simp only [Bool.true_eq_false, if_false]
    rcases hq : pollFrom cfg.timeout cfg.pollInterval env.readyAt (cfg.timeout + 1) 0
      with ⟨b, tR⟩
    cases b with
    | false =>
      cases hi : env.interruptAt with
      | none => simpa [outcomeCode] using launcherExitCode_timeoutPath cfg env tR
      | some ti =>
        by_cases hlt : ti < tR
        · simpa [if_pos hlt, outcomeCode] using
            launcherExitCode_earlyInterruptPath cfg env ti
        · simpa [if_neg hlt, outcomeCode] using launcherExitCode_timeoutPath cfg env tR
    | true =>
      cases hi : env.interruptAt with
      | none => simpa [outcomeCode] using launcherExitCode_normalPath cfg env tR
      | some ti =>
        by_cases hlt : ti < tR
        · simpa [if_pos hlt, outcomeCode] using
            launcherExitCode_earlyInterruptPath cfg env ti
        · by_cases hlt2 : ti < tR + env.testDuration
          · simpa [if_neg hlt, if_pos hlt2, outcomeCode] using
              launcherExitCode_testInterruptPath cfg env tR ti
          · simpa [if_neg hlt, if_neg hlt2, outcomeCode] using
              launcherExitCode_normalPath cfg env tR

/-- No launcher run leaks the server process. -/
theorem serverAliveAfter_runLauncher (cfg : LauncherConfig) (env : LauncherEnv) :
    serverAliveAfter (runLauncher cfg env) = false := by
  have h := lifecycleOk_runLauncher cfg env
  unfold lifecycleOk at h
  simp only [Bool.and_eq_true, Bool.or_eq_true, Bool.not_eq_true] at h
  rcases h with ⟨⟨⟨⟨h1, _⟩, _⟩, _⟩, _⟩
  rcases h1 with h1 | h1
  · have h2 : (runLauncher cfg env).any (fun te => isServerSpawn te.2) = false := by
      simpa using h1
    unfold serverAliveAfter
    rw [h2, Bool.false_and]
  · unfold serverAliveAfter
    rw [h1, Bool.not_true, Bool.and_false]

/-- Every launcher run leaves the clean world: port free, no orphan. -/
theorem runLauncherW_leaves_clean (cfg : LauncherConfig) (env : LauncherEnv)
    (w : World) : (runLauncherW cfg env w).2 = cleanWorld := by
  unfold runLauncherW cleanWorld
  simp [serverAliveAfter_runLauncher]

end WithServer

namespace WebappTesting

/-- Folding the registered handler over a page's messages appends their
formatted entries in arrival order. -/
theorem foldl_handle_console (msgs : List ConsoleMsg) (logs : List String) :
    msgs.foldl (fun acc m => handle_console m acc) logs
      = logs ++ msgs.map formatConsoleMsg := by
  induction msgs generalizing logs with
  | nil => simp
  | cons m ms ih =>
    rw [List.foldl_cons, ih]
    simp [handle_console]

/-- Extracting navigations distributes over concatenation. -/
theorem gotoUrls_append (a b : List PWStep) :
    gotoUrls (a ++ b) = gotoUrls a ++ gotoUrls b := by
  simp [gotoUrls]

/-- Extracting screenshots distributes over concatenation. -/
theorem screenshotPaths_append (a b : List PWStep) :
    screenshotPaths (a ++ b) = screenshotPaths a ++ screenshotPaths b := by
  simp [screenshotPaths]

/-- Extracting printed counts distributes over concatenation. -/
theorem printedLinkCounts_append (a b : List PWStep) :
    printedLinkCounts (a ++ b) = printedLinkCounts a ++ printedLinkCounts b := by
  simp [printedLinkCounts]

/-- Extracting printed details distributes over concatenation. -/
theorem printedLinkDetails_append (a b : List PWStep) :
    printedLinkDetails (a ++ b) = printedLinkDetails a ++ printedLinkDetails b := by
  simp [printedLinkDetails]

/-- The detail loop performs no navigation. -/
theorem gotoUrls_linkDetailSteps (links : List STLink) :
    gotoUrls (linkDetailSteps links) = [] := by
  unfold gotoUrls linkDetailSteps
  generalize links.take 5 = t
  induction t with
  | nil => rfl
  | cons l t ih => simp

/-- The detail loop takes no screenshot. -/
theorem screenshotPaths_linkDetailSteps (links : List STLink) :
    screenshotPaths (linkDetailSteps links) = [] := by
  unfold screenshotPaths linkDetailSteps
  generalize links.take 5 = t
  induction t with
  | nil => rfl
  | cons l t ih => simp

/-- The detail loop prints no link count. -/
theorem printedLinkCounts_linkDetailSteps (links : List STLink) :
    printedLinkCounts (linkDetailSteps links) = [] := by
  unfold printedLinkCounts linkDetailSteps
  generalize links.take 5 = t
  induction t with
  | nil => rfl
  | cons l t ih => simp

/-- The detail loop prints exactly the first five links' stripped text and
href, in locator order. -/
theorem printedLinkDetails_linkDetailSteps (links : List STLink) :
    printedLinkDetails (linkDetailSteps links)
      = (links.take 5).map (fun l => (l.innerText.trim, l.href)) := by
  unfold printedLinkDetails linkDetailSteps
  generalize links.take 5 = t
  induction t with
  | nil => rfl
  | cons l t ih => simpa using ih

/-- The click-first-link block performs no navigation call. -/
theorem gotoUrls_clickFirstSteps (env : ServerTestEnv) :
    gotoUrls (clickFirstSteps env) = [] := by
  unfold gotoUrls clickFirstSteps
  cases h : env.homeLinks with
  | nil => simp
  | cons l ls => simp

/-- The click-first-link block takes no screenshot. -/
theorem screenshotPaths_clickFirstSteps (env : ServerTestEnv) :
    screenshotPaths (clickFirstSteps env) = [] := by
  unfold screenshotPaths clickFirstSteps
  cases h : env.homeLinks with
  | nil => simp
  | cons l ls => simp

/-- The click-first-link block prints no link count. -/
theorem printedLinkCounts_clickFirstSteps (env : ServerTestEnv) :
    printedLinkCounts (clickFirstSteps env) = [] := by
  unfold printedLinkCounts clickFirstSteps
  cases h : env.homeLinks with
  | nil => simp
  | cons l ls => simp

/-- The click-first-link block prints no per-link detail. -/
theorem printedLinkDetails_clickFirstSteps (env : ServerTestEnv) :
    printedLinkDetails (clickFirstSteps env) = [] := by
  unfold printedLinkDetails clickFirstSteps
  cases h : env.homeLinks with
  | nil => simp
  | cons l ls => simp

/-- `php_server_testing.py` navigates exactly once, to the hardcoded
`http://localhost:8000`, whatever the page contains. -/
theorem gotoUrls_php_server_testing (env : ServerTestEnv) :
    gotoUrls (php_server_testing env) = ["http://localhost:8000"] := by
  unfold php_server_testing
  rw [gotoUrls_append, gotoUrls_append, gotoUrls_append,
    gotoUrls_linkDetailSteps, gotoUrls_clickFirstSteps]
  rfl

/-- `php_server_testing.py` writes exactly one screenshot, to the constant
path `/tmp/php_app_test.png`. -/
theorem screenshotPaths_php_server_testing (env : ServerTestEnv) :
    screenshotPaths (php_server_testing env) = ["/tmp/php_app_test.png"] := by
  unfold php_server_testing
  rw [screenshotPaths_append, screenshotPaths_append, screenshotPaths_append,
    screenshotPaths_linkDetailSteps, screenshotPaths_clickFirstSteps]
  rfl

/-- `php_server_testing.py` prints the link count exactly once: the length of
the located list. -/
theorem printedLinkCounts_php_server_testing (env : ServerTestEnv) :
    printedLinkCounts (php_server_testing env) = [env.homeLinks.length] := by
  unfold php_server_testing
  rw [printedLinkCounts_append, printedLinkCounts_append, printedLinkCounts_append,
    printedLinkCounts_linkDetailSteps, printedLinkCounts_clickFirstSteps]
  rfl

/-- `php_server_testing.py` prints per-link details exactly for the first
five links, in locator order. -/
theorem printedLinkDetails_php_server_testing (env : ServerTestEnv) :
    printedLinkDetails (php_server_testing env)
      = (env.homeLinks.take 5).map (fun l => (l.innerText.trim, l.href)) := by
  unfold php_server_testing
  rw [printedLinkDetails_append, printedLinkDetails_append, printedLinkDetails_append,
    printedLinkDetails_linkDetailSteps, printedLinkDetails_clickFirstSteps]
  simp [printedLinkDetails]

/-- The five navigations of `php_testing_example.py`, all on the hardcoded
host and port. -/
theorem gotoUrls_php_testing_example (env : TestingEnv) :
    gotoUrls (php_testing_example env)
      = ["http://localhost:8000/login.php", "http://localhost:8000/api/users.php",
         "http://localhost:8000/register.php", "http://localhost:8000/dashboard.php",
         "http://localhost:8000/profile.php"] := rfl

/-- The two screenshots of `php_testing_example.py`, both at constant paths
under `/tmp`. -/
theorem screenshotPaths_php_testing_example (env : TestingEnv) :
    screenshotPaths (php_testing_example env)
      = ["/tmp/php_login_page.png", "/tmp/php_profile_page.png"] := rfl

end WebappTesting

namespace WebappTesting

/-- Claim C6: in both example scripts every page navigation targets the
hardcoded host and port `http://localhost:8000` and every screenshot is
written to a fixed constant path under `/tmp`; the navigation and screenshot
lists are the same constants for every page environment, so neither the port
nor the paths are configurable inputs of the scripts. -/
theorem C6_hardcoded_urls_and_paths (env1 : ServerTestEnv) (env2 : TestingEnv) :
    gotoUrls (php_server_testing env1) = ["http://localhost:8000"]
    ∧ gotoUrls (php_testing_example env2)
        = ["http://localhost:8000/login.php", "http://localhost:8000/api/users.php",
           "http://localhost:8000/register.php", "http://localhost:8000/dashboard.php",
           "http://localhost:8000/profile.php"]
    ∧ screenshotPaths (php_server_testing env1) = ["/tmp/php_app_test.png"]
    ∧ screenshotPaths (php_testing_example env2)
        = ["/tmp/php_login_page.png", "/tmp/php_profile_page.png"]
    ∧ (gotoUrls (php_server_testing env1) ++ gotoUrls (php_testing_example env2)).all
        (fun u => "http://localhost:8000".data.isPrefixOf u.data) = true
    ∧ (screenshotPaths (php_server_testing env1)
        ++ screenshotPaths (php_testing_example env2)).all
        (fun p => "/tmp/".data.isPrefixOf p.data) = true := by
  refine ⟨gotoUrls_php_server_testing env1, gotoUrls_php_testing_example env2,
    screenshotPaths_php_server_testing env1, screenshotPaths_php_testing_example env2,
    ?_, ?_⟩
  · rw [gotoUrls_php_server_testing, gotoUrls_php_testing_example]
    decide
  · rw [screenshotPaths_php_server_testing, screenshotPaths_php_testing_example]
    decide

/-- Claim C7: the console capture is an append-only ordered sequence — the
registered handler appends exactly one formatted entry per message, a page's
messages are delivered to the handler in arrival order, and the list the
script reads after the Example 4 navigation is exactly the dashboard page's
messages, formatted, in order (none removed or reordered). -/
theorem C7_console_capture_append_only (msg : ConsoleMsg) (logs : List String)
    (msgs : List ConsoleMsg) (env : TestingEnv) :
    handle_console msg logs = logs ++ [formatConsoleMsg msg]
    ∧ deliverMsgs true msgs logs = logs ++ msgs.map formatConsoleMsg
    ∧ (runPW ((php_testing_example env).take 27) initPWState).console_logs
        = env.dashboardMsgs.map formatConsoleMsg := by
  refine ⟨rfl, ?_, ?_⟩
  · simp [deliverMsgs, foldl_handle_console]
  · have h : (runPW ((php_testing_example env).take 27) initPWState).console_logs
        = List.foldl (fun acc m => handle_console m acc) [] env.dashboardMsgs := rfl
    rw [h, foldl_handle_console]
    simp

/-- Claim C8: in `php_server_testing.py` the `links[0]` read and click are
guarded by the non-emptiness test, so for every page — the zero-link page
included — no out-of-bounds element access occurs and the script reaches the
screenshot step. -/
theorem C8_first_link_guard_safe (env : ServerTestEnv) :
    (php_server_testing env).all (fun st => !(isNoneClick st)) = true
    ∧ PWStep.screenshot "/tmp/php_app_test.png" true ∈ php_server_testing env := by
  constructor
  · cases h : env.homeLinks with
    | nil =>
      simp [php_server_testing, linkDetailSteps, clickFirstSteps, h, isNoneClick]
    | cons l ls =>
      simp [php_server_testing, linkDetailSteps, clickFirstSteps, h, isNoneClick]
      intro x hx
      obtain ⟨y, hy, rfl⟩ := List.mem_map.mp (List.take_subset 4 _ hx)
      rfl
  · simp [php_server_testing]

/-- Claim C9: for every page, `php_server_testing.py` prints the total number
of located links as its one link count, and prints per-link details exactly
for the first five links, in locator order. -/
theorem C9_link_count_and_details (env : ServerTestEnv) :
    printedLinkCounts (php_server_testing env) = [env.homeLinks.length]
    ∧ printedLinkDetails (php_server_testing env)
        = (env.homeLinks.take 5).map (fun l => (l.innerText.trim, l.href)) :=
  ⟨printedLinkCounts_php_server_testing env, printedLinkDetails_php_server_testing env⟩

/-- Claim C10: in `php_testing_example.py` the console handler is registered
only immediately before the Example 4 navigation: Examples 1-3 leave the
state (handler off, `console_logs = []`) unchanged, the step at index 23 is
the registration and the step at index 24 the `dashboard.php` navigation, and
the final `console_logs` holds exactly the messages of the dashboard and
later (profile) navigations. -/
theorem C10_console_handler_scope (env : TestingEnv) :
    runPW ((php_testing_example env).take 23) initPWState = initPWState
    ∧ (runPW ((php_testing_example env).take 24) initPWState).console_logs = []
    ∧ (php_testing_example env).get? 23 = some PWStep.onConsole
    ∧ (php_testing_example env).get? 24
        = some (PWStep.goto "http://localhost:8000/dashboard.php" env.dashboardMsgs)
    ∧ (runPW (php_testing_example env) initPWState).console_logs
        = (env.dashboardMsgs ++ env.profileMsgs).map formatConsoleMsg := by
  refine ⟨rfl, rfl, rfl, rfl, ?_⟩
  have h : (runPW (php_testing_example env) initPWState).console_logs
      = List.foldl (fun acc m => handle_console m acc)
          (List.foldl (fun acc m => handle_console m acc) [] env.dashboardMsgs)
          env.profileMsgs := rfl
  rw [h, foldl_handle_console, foldl_handle_console]
  simp

end WebappTesting

namespace WithServer

/-- Claim C1: when the server command is spawned, opens the port within the
timeout and no interrupt occurs, the launcher runs the test command to
completion and its own exit status equals the test command's exit status
exactly; every run's exit code is its outcome's code, and the reserved
failure code is surfaced only by the readiness-timeout or launch-failure
outcomes (or by a test command that itself exits with that number). -/
theorem C1_exit_code_propagation (cfg : LauncherConfig) (env : LauncherEnv) (r : Nat)
    (hs : env.spawnOk = true) (hr : env.readyAt = some r) (hrt : r ≤ cfg.timeout)
    (hpi : 1 ≤ cfg.pollInterval) (hni : env.interruptAt = none) :
    launcherOutcome cfg env = LauncherOutcome.testCompleted env.testExitCode
    ∧ launcherExitCode (runLauncher cfg env) = some env.testExitCode
    ∧ (runLauncher cfg env).any (fun te => isTestExited te.2) = true
    ∧ reservedCode ≠ 0
    ∧ (∀ o : LauncherOutcome, outcomeCode o = reservedCode →
        o = LauncherOutcome.launchFailure ∨ o = LauncherOutcome.startTimeout
        ∨ o = LauncherOutcome.testCompleted reservedCode)
    ∧ (∀ cfg2 env2, launcherExitCode (runLauncher cfg2 env2)
        = some (outcomeCode (launcherOutcome cfg2 env2))) := by
  have hb : (pollFrom cfg.timeout cfg.pollInterval env.readyAt (cfg.timeout + 1) 0).1
      = true := by
    rw [hr]
    exact (pollFrom_ready_succeeds cfg.timeout cfg.pollInterval r hrt hpi).1
  rcases hq : pollFrom cfg.timeout cfg.pollInterval env.readyAt (cfg.timeout + 1) 0
    with ⟨b, tR⟩
  rw [hq] at hb
  subst hb
  have hrun : runLauncher cfg env = normalPath cfg env tR := by
    simp only [runLauncher, hs, Bool.true_eq_false, if_false, hq, hni]
  have houtcome : launcherOutcome cfg env
      = LauncherOutcome.testCompleted env.testExitCode := by
    simp only [launcherOutcome, hs, Bool.true_eq_false, if_false, hq, hni]
  refine ⟨houtcome, ?_, ?_, by decide, ?_, launcherExitCode_eq_outcomeCode⟩
  · rw [hrun]; exact launcherExitCode_normalPath cfg env tR
  · rw [hrun]; exact testExited_normalPath cfg env tR
  · intro o ho
    cases o with
    | launchFailure => exact Or.inl rfl
    | startTimeout => exact Or.inr (Or.inl rfl)
    | interrupted => exact absurd ho (by decide)
    | testCompleted c =>
      exact Or.inr (Or.inr (by rw [show c = reservedCode from ho]))

/-- Witness for C1 at a concrete run: server ready at time 3 against a 30s
timeout, test command exits 7, no interrupt. -/
theorem C1_exit_code_propagation_witness :
    launcherOutcome ⟨"php -S localhost:8000", 8000, 30, 1, 5⟩
        ⟨true, some 3, 7, 4, none, true, true⟩
      = LauncherOutcome.testCompleted 7
    ∧ launcherExitCode (runLauncher ⟨"php -S localhost:8000", 8000, 30, 1, 5⟩
        ⟨true, some 3, 7, 4, none, true, true⟩) = some 7
    ∧ (runLauncher ⟨"php -S localhost:8000", 8000, 30, 1, 5⟩
        ⟨true, some 3, 7, 4, none, true, true⟩).any
          (fun te => isTestExited te.2) = true
    ∧ reservedCode ≠ 0
    ∧ (∀ o : LauncherOutcome, outcomeCode o = reservedCode →
        o = LauncherOutcome.launchFailure ∨ o = LauncherOutcome.startTimeout
        ∨ o = LauncherOutcome.testCompleted reservedCode)
    ∧ (∀ cfg2 env2, launcherExitCode (runLauncher cfg2 env2)
        = some (outcomeCode (launcherOutcome cfg2 env2))) :=
  C1_exit_code_propagation ⟨"php -S localhost:8000", 8000, 30, 1, 5⟩
    ⟨true, some 3, 7, 4, none, true, true⟩ 3 rfl rfl (by decide) (by decide) rfl

end WithServer

namespace WithServer

/-- Counterexample to claim C3 as stated: with `timeout = 2`,
`polling_interval = 1`, a grace period of 10 and a server that ignores the
termination signal, the run is a `ServerStartTimeout` with the reserved exit
code, but the launcher exits at time 12, past `timeout + polling_interval
= 3` — the force-kill wait pushes the exit beyond the claimed deadline. -/
theorem C3_timeout_deadline_counterexample :
    launcherOutcome ⟨"sleep 100", 9999, 2, 1, 10⟩ ⟨true, none, 0, 0, none, false, true⟩
      = LauncherOutcome.startTimeout
    ∧ launcherExitCode (runLauncher ⟨"sleep 100", 9999, 2, 1, 10⟩
        ⟨true, none, 0, 0, none, false, true⟩) = some reservedCode
    ∧ launcherExitTime (runLauncher ⟨"sleep 100", 9999, 2, 1, 10⟩
        ⟨true, none, 0, 0, none, false, true⟩) = some 12
    ∧ ¬(12 ≤ 2 + 1) := by decide

/-- Claim C3 (amended): for every server command that never opens the port,
with no interrupt, the launcher reaches the `ServerStartTimeout` outcome,
never runs the test command, kills the server, and exits with the reserved
code within `timeout + polling_interval + grace_period`; the poll loop
itself gives up within `timeout + polling_interval`. -/
theorem C3_timeout_behaviour (cfg : LauncherConfig) (env : LauncherEnv)
    (hs : env.spawnOk = true) (hr : env.readyAt = none)
    (hpi : 1 ≤ cfg.pollInterval) (hni : env.interruptAt = none) :
    launcherOutcome cfg env = LauncherOutcome.startTimeout
    ∧ launcherExitCode (runLauncher cfg env) = some reservedCode
    ∧ (runLauncher cfg env).all (fun te => !(isTestEvent te.2)) = true
    ∧ (∃ tFail, pollFrom cfg.timeout cfg.pollInterval env.readyAt (cfg.timeout + 1) 0
        = (false, tFail) ∧ tFail < cfg.timeout + cfg.pollInterval)
    ∧ (∃ td te, serverDeadTime (runLauncher cfg env) = some td
        ∧ launcherExitTime (runLauncher cfg env) = some te ∧ td ≤ te
        ∧ te ≤ cfg.timeout + cfg.pollInterval + cfg.gracePeriod) := by
  have hb : (pollFrom cfg.timeout cfg.pollInterval env.readyAt (cfg.timeout + 1) 0).1
      = false := by
    rw [hr]
    exact pollFrom_never_ready cfg.timeout cfg.pollInterval (cfg.timeout + 1) 0
  rcases hq : pollFrom cfg.timeout cfg.pollInterval env.readyAt (cfg.timeout + 1) 0
    with ⟨b, tF⟩
  rw [hq] at hb
  subst hb
  have htF : tF < cfg.timeout + cfg.pollInterval := by
    have h0 : (0 : Nat) < cfg.timeout + cfg.pollInterval := by omega
    have := pollFrom_time_lt cfg.timeout cfg.pollInterval env.readyAt
      (cfg.timeout + 1) 0 h0
    rw [hq] at this
    exact this
  have hrun : runLauncher cfg env = timeoutPath cfg env tF := by
    simp only [runLauncher, hs, Bool.true_eq_false, if_false, hq, hni]
  have houtcome : launcherOutcome cfg env = LauncherOutcome.startTimeout := by
    simp only [launcherOutcome, hs, Bool.true_eq_false, if_false, hq, hni]
  refine ⟨houtcome, ?_, ?_, ⟨tF, rfl, htF⟩, ?_⟩
  · rw [hrun]; exact launcherExitCode_timeoutPath cfg env tF
  · rw [hrun]; exact noTestEvents_timeoutPath cfg env tF
  · refine ⟨cleanupEnd cfg.gracePeriod env.serverDiesGracefully tF,
      cleanupEnd cfg.gracePeriod env.serverDiesGracefully tF, ?_, ?_, le_refl _, ?_⟩
    · rw [hrun]; exact serverDeadTime_timeoutPath cfg env tF
    · rw [hrun]; exact launcherExitTime_timeoutPath cfg env tF
    · have := (cleanupEnd_bounds cfg.gracePeriod env.serverDiesGracefully tF).2
      omega

/-- Witness for the amended C3 at a concrete run: `timeout = 2`, interval 1,
grace 3, a server that never opens port 9999 and dies on the termination
signal. -/
theorem C3_timeout_behaviour_witness :
    launcherOutcome ⟨"sleep 100", 9999, 2, 1, 3⟩ ⟨true, none, 5, 0, none, true, true⟩
      = LauncherOutcome.startTimeout
    ∧ launcherExitCode (runLauncher ⟨"sleep 100", 9999, 2, 1, 3⟩
        ⟨true, none, 5, 0, none, true, true⟩) = some reservedCode
    ∧ (runLauncher ⟨"sleep 100", 9999, 2, 1, 3⟩
        ⟨true, none, 5, 0, none, true, true⟩).all
          (fun te => !(isTestEvent te.2)) = true
    ∧ (∃ tFail, pollFrom 2 1 none (2 + 1) 0 = (false, tFail) ∧ tFail < 2 + 1)
    ∧ (∃ td te, serverDeadTime (runLauncher ⟨"sleep 100", 9999, 2, 1, 3⟩
          ⟨true, none, 5, 0, none, true, true⟩) = some td
        ∧ launcherExitTime (runLauncher ⟨"sleep 100", 9999, 2, 1, 3⟩
          ⟨true, none, 5, 0, none, true, true⟩) = some te ∧ td ≤ te
        ∧ te ≤ 2 + 1 + 3) :=
  C3_timeout_behaviour ⟨"sleep 100", 9999, 2, 1, 3⟩ ⟨true, none, 5, 0, none, true, true⟩
    rfl rfl (by decide) rfl

/-- Claim C4: an external interrupt delivered while the test command runs
sends the termination signal to both children; both are gone within the
grace period of the interrupt, and both death events strictly precede the
launcher's exit event. -/
theorem C4_interrupt_cascade (cfg : LauncherConfig) (env : LauncherEnv)
    (tReady ti : Nat)
    (hs : env.spawnOk = true)
    (hp : pollFrom cfg.timeout cfg.pollInterval env.readyAt (cfg.timeout + 1) 0
        = (true, tReady))
    (hi : env.interruptAt = some ti)
    (h1 : tReady ≤ ti) (h2 : ti < tReady + env.testDuration) :
    (runLauncher cfg env).any (fun te => isSigtermTest te.2) = true
    ∧ (runLauncher cfg env).any (fun te => isSigtermServer te.2) = true
    ∧ (∃ td, testDeadTime (runLauncher cfg env) = some td
        ∧ ti ≤ td ∧ td ≤ ti + cfg.gracePeriod)
    ∧ (∃ sd, serverDeadTime (runLauncher cfg env) = some sd
        ∧ ti ≤ sd ∧ sd ≤ ti + cfg.gracePeriod)
    ∧ allBefore isTestDead isLauncherExit (runLauncher cfg env) = true
    ∧ allBefore isServerDead isLauncherExit (runLauncher cfg env) = true := by
  have hrun : runLauncher cfg env = testInterruptPath cfg env tReady ti := by
    simp only [runLauncher, hs, Bool.true_eq_false, if_false, hp, hi]
    rw [if_neg (by omega), if_pos h2]
  rw [hrun]
  refine ⟨(sigterms_testInterruptPath cfg env tReady ti).1,
    (sigterms_testInterruptPath cfg env tReady ti).2, ?_, ?_,
    (deaths_before_exit_testInterruptPath cfg env tReady ti).1,
    (deaths_before_exit_testInterruptPath cfg env tReady ti).2⟩
  · exact ⟨testKillEnd cfg.gracePeriod env.testDiesGracefully ti,
      testDeadTime_testInterruptPath cfg env tReady ti,
      (testKillEnd_bounds cfg.gracePeriod env.testDiesGracefully ti).1,
      (testKillEnd_bounds cfg.gracePeriod env.testDiesGracefully ti).2⟩
  · exact ⟨cleanupEnd cfg.gracePeriod env.serverDiesGracefully ti,
      serverDeadTime_testInterruptPath cfg env tReady ti,
      (cleanupEnd_bounds cfg.gracePeriod env.serverDiesGracefully ti).1,
      (cleanupEnd_bounds cfg.gracePeriod env.serverDiesGracefully ti).2⟩

/-- Witness for C4 at a concrete run: port ready at 2, interrupt at 4 while
the test command (duration 10) is running, grace period 3. -/
theorem C4_interrupt_cascade_witness :
    (runLauncher ⟨"php -S localhost:8000", 8000, 5, 1, 3⟩
        ⟨true, some 2, 0, 10, some 4, true, false⟩).any
      (fun te => isSigtermTest te.2) = true
    ∧ (runLauncher ⟨"php -S localhost:8000", 8000, 5, 1, 3⟩
        ⟨true, some 2, 0, 10, some 4, true, false⟩).any
      (fun te => isSigtermServer te.2) = true
    ∧ (∃ td, testDeadTime (runLauncher ⟨"php -S localhost:8000", 8000, 5, 1, 3⟩
          ⟨true, some 2, 0, 10, some 4, true, false⟩) = some td
        ∧ 4 ≤ td ∧ td ≤ 4 + 3)
    ∧ (∃ sd, serverDeadTime (runLauncher ⟨"php -S localhost:8000", 8000, 5, 1, 3⟩
          ⟨true, some 2, 0, 10, some 4, true, false⟩) = some sd
        ∧ 4 ≤ sd ∧ sd ≤ 4 + 3)
    ∧ allBefore isTestDead isLauncherExit
        (runLauncher ⟨"php -S localhost:8000", 8000, 5, 1, 3⟩
          ⟨true, some 2, 0, 10, some 4, true, false⟩) = true
    ∧ allBefore isServerDead isLauncherExit
        (runLauncher ⟨"php -S localhost:8000", 8000, 5, 1, 3⟩
          ⟨true, some 2, 0, 10, some 4, true, false⟩) = true :=
  C4_interrupt_cascade ⟨"php -S localhost:8000", 8000, 5, 1, 3⟩
    ⟨true, some 2, 0, 10, some 4, true, false⟩ 2 4 rfl (by decide) rfl
    (by decide) (by decide)

/-- Claim C5: a launcher run started with the port free leaves the clean
world (port free, no leaked process), so an immediately following run with
the same inputs produces the identical trace and the identical final world —
nothing from the first run affects the second. -/
theorem C5_sequential_idempotence (cfg : LauncherConfig) (env : LauncherEnv)
    (w : World) (hw : w.portBusy = false) :
    (runLauncherW cfg env w).2 = cleanWorld
    ∧ (runLauncherW cfg env ((runLauncherW cfg env w).2)).1
        = (runLauncherW cfg env w).1
    ∧ (runLauncherW cfg env ((runLauncherW cfg env w).2)).2
        = (runLauncherW cfg env w).2 := by
  have h1 := runLauncherW_leaves_clean cfg env w
  have henv : envInWorld env w = env := by
    simp [envInWorld, hw]
  have henv2 : envInWorld env cleanWorld = env := by
    simp [envInWorld, cleanWorld]
  refine ⟨h1, ?_, ?_⟩
  · rw [h1]
    simp only [runLauncherW, henv, henv2]
  · rw [h1, runLauncherW_leaves_clean cfg env cleanWorld]

/-- Witness for C5 at a concrete run starting from the clean world. -/
theorem C5_sequential_idempotence_witness :
    (runLauncherW ⟨"python -m http.server 8000", 8000, 5, 1, 2⟩
        ⟨true, some 1, 0, 2, none, true, true⟩ cleanWorld).2 = cleanWorld
    ∧ (runLauncherW ⟨"python -m http.server 8000", 8000, 5, 1, 2⟩
        ⟨true, some 1, 0, 2, none, true, true⟩
        ((runLauncherW ⟨"python -m http.server 8000", 8000, 5, 1, 2⟩
          ⟨true, some 1, 0, 2, none, true, true⟩ cleanWorld).2)).1
        = (runLauncherW ⟨"python -m http.server 8000", 8000, 5, 1, 2⟩
            ⟨true, some 1, 0, 2, none, true, true⟩ cleanWorld).1
    ∧ (runLauncherW ⟨"python -m http.server 8000", 8000, 5, 1, 2⟩
        ⟨true, some 1, 0, 2, none, true, true⟩
        ((runLauncherW ⟨"python -m http.server 8000", 8000, 5, 1, 2⟩
          ⟨true, some 1, 0, 2, none, true, true⟩ cleanWorld).2)).2
        = (runLauncherW ⟨"python -m http.server 8000", 8000, 5, 1, 2⟩
            ⟨true, some 1, 0, 2, none, true, true⟩ cleanWorld).2 :=
  C5_sequential_idempotence ⟨"python -m http.server 8000", 8000, 5, 1, 2⟩
    ⟨true, some 1, 0, 2, none, true, true⟩ cleanWorld rfl

end WithServer

namespace WithServer

/-- Server-death time of the normal path: the end of the cleanup started at
the test command's exit. -/
theorem serverDeadTime_normalPath (cfg : LauncherConfig) (env : LauncherEnv)
    (tReady : Nat) :
    serverDeadTime (normalPath cfg env tReady)
      = some (cleanupEnd cfg.gracePeriod env.serverDiesGracefully
          (tReady + env.testDuration)) := by
  cases hg : env.serverDiesGracefully <;>
    simp [normalPath, cleanupTrace, cleanupEnd, serverDeadTime, hg]

/-- Exit time of the normal path: the end of the cleanup started at the test
command's exit. -/
theorem launcherExitTime_normalPath (cfg : LauncherConfig) (env : LauncherEnv)
    (tReady : Nat) :
    launcherExitTime (normalPath cfg env tReady)
      = some (cleanupEnd cfg.gracePeriod env.serverDiesGracefully
          (tReady + env.testDuration)) := by
  cases hg : env.serverDiesGracefully <;>
    simp [normalPath, cleanupTrace, cleanupEnd, launcherExitTime, hg]

/-- The normal path spawns the server at time 0. -/
theorem serverSpawnTime_normalPath (cfg : LauncherConfig) (env : LauncherEnv)
    (tReady : Nat) :
    serverSpawnTime (normalPath cfg env tReady) = some 0 := by
  cases hg : env.serverDiesGracefully <;>
    simp [normalPath, cleanupTrace, serverSpawnTime, hg]

/-- The normal path starts the test command at the port-readiness time. -/
theorem testStartTime_normalPath (cfg : LauncherConfig) (env : LauncherEnv)
    (tReady : Nat) :
    testStartTime (normalPath cfg env tReady) = some tReady := by
  cases hg : env.serverDiesGracefully <;>
    simp [normalPath, cleanupTrace, testStartTime, hg]

/-- On the normal path the scenario window closes at the test command's own
exit. -/
theorem testEndTime_normalPath (cfg : LauncherConfig) (env : LauncherEnv)
    (tReady : Nat) :
    testEndTime (normalPath cfg env tReady) = some (tReady + env.testDuration) := by
  cases hg : env.serverDiesGracefully <;>
    simp [normalPath, cleanupTrace, testEndTime, hg]

/-- Server-death time of the early-interrupt path: the end of the cleanup
started at the interrupt. -/
theorem serverDeadTime_earlyInterruptPath (cfg : LauncherConfig)
    (env : LauncherEnv) (ti : Nat) :
    serverDeadTime (earlyInterruptPath cfg env ti)
      = some (cleanupEnd cfg.gracePeriod env.serverDiesGracefully ti) := by
  cases hg : env.serverDiesGracefully <;>
    simp [earlyInterruptPath, cleanupTrace, cleanupEnd, serverDeadTime, hg]

/-- Exit time of the early-interrupt path: the end of the cleanup started at
the interrupt. -/
theorem launcherExitTime_earlyInterruptPath (cfg : LauncherConfig)
    (env : LauncherEnv) (ti : Nat) :
    launcherExitTime (earlyInterruptPath cfg env ti)
      = some (cleanupEnd cfg.gracePeriod env.serverDiesGracefully ti) := by
  cases hg : env.serverDiesGracefully <;>
    simp [earlyInterruptPath, cleanupTrace, cleanupEnd, launcherExitTime, hg]

/-- Exit time of the interrupt-during-test path: once both children's kills
have completed. -/
theorem launcherExitTime_testInterruptPath (cfg : LauncherConfig)
    (env : LauncherEnv) (tReady ti : Nat) :
    launcherExitTime (testInterruptPath cfg env tReady ti)
      = some (max (testKillEnd cfg.gracePeriod env.testDiesGracefully ti)
          (cleanupEnd cfg.gracePeriod env.serverDiesGracefully ti)) := by
  cases hg : env.serverDiesGracefully <;> cases hgt : env.testDiesGracefully <;>
    simp [testInterruptPath, cleanupTrace, testKillTrace, testKillEnd, cleanupEnd,
      launcherExitTime, hg, hgt]

/-- On every run, whatever the exit path, the server's death timestamp is no
later than the launcher's exit timestamp: the server never outlives the
launcher in real time. -/
theorem serverDead_le_launcherExit (cfg : LauncherConfig) (env : LauncherEnv) :
    ∀ td te, serverDeadTime (runLauncher cfg env) = some td →
      launcherExitTime (runLauncher cfg env) = some te → td ≤ te := by
  unfold runLauncher
  cases hs : env.spawnOk with
  | false =>
    intro td te h1 h2
    simp [serverDeadTime] at h1
  | true =>
    simp only [Bool.true_eq_false, if_false]
    rcases hq : pollFrom cfg.timeout cfg.pollInterval env.readyAt (cfg.timeout + 1) 0
      with ⟨b, tR⟩
    cases b with
    | false =>
      cases hi : env.interruptAt with
      | none =>
        intro td te h1 h2
        rw [serverDeadTime_timeoutPath] at h1
        rw [launcherExitTime_timeoutPath] at h2
        simp only [Option.some.injEq] at h1 h2
        omega
      | some ti =>
        by_cases hlt : ti < tR
        · simp only [if_pos hlt]
          intro td te h1 h2
          rw [serverDeadTime_earlyInterruptPath] at h1
          rw [launcherExitTime_earlyInterruptPath] at h2
          simp only [Option.some.injEq] at h1 h2
          omega
        · simp only [if_neg hlt]
          intro td te h1 h2
          rw [serverDeadTime_timeoutPath] at h1
          rw [launcherExitTime_timeoutPath] at h2
          simp only [Option.some.injEq] at h1 h2
          omega
    | true =>
      cases hi : env.interruptAt with
      | none =>
        intro td te h1 h2
        rw [serverDeadTime_normalPath] at h1
        rw [launcherExitTime_normalPath] at h2
        simp only [Option.some.injEq] at h1 h2
        omega
      | some ti =>
        by_cases hlt : ti < tR
        · simp only [if_pos hlt]
          intro td te h1 h2
          rw [serverDeadTime_earlyInterruptPath] at h1
          rw [launcherExitTime_earlyInterruptPath] at h2
          simp only [Option.some.injEq] at h1 h2
          omega
        · simp only [if_neg hlt]
          by_cases hlt2 : ti < tR + env.testDuration
          · simp only [if_pos hlt2]
            intro td te h1 h2
            rw [serverDeadTime_testInterruptPath] at h1
            rw [launcherExitTime_testInterruptPath] at h2
            simp only [Option.some.injEq] at h1 h2
            have hmax := le_max_right
              (testKillEnd cfg.gracePeriod env.testDiesGracefully ti)
              (cleanupEnd cfg.gracePeriod env.serverDiesGracefully ti)
            omega
          · simp only [if_neg hlt2]
            intro td te h1 h2
            rw [serverDeadTime_normalPath] at h1
            rw [launcherExitTime_normalPath] at h2
            simp only [Option.some.injEq] at h1 h2
            omega

/-- Counterexample to claim C2 as stated: under an interrupt at time 4 during
`TestRunning`, with a server that dies on the termination signal and a test
command that ignores it, the server is dead at time 4 while the test command
lives until time 7 — the server's lifetime does not temporally contain the
scenario's execution window on the interrupt exit path. -/
theorem C2_containment_counterexample :
    serverDeadTime (runLauncher ⟨"php -S localhost:8000", 8000, 5, 1, 3⟩
        ⟨true, some 2, 0, 10, some 4, true, false⟩) = some 4
    ∧ testEndTime (runLauncher ⟨"php -S localhost:8000", 8000, 5, 1, 3⟩
        ⟨true, some 2, 0, 10, some 4, true, false⟩) = some 7
    ∧ testDeadTime (runLauncher ⟨"php -S localhost:8000", 8000, 5, 1, 3⟩
        ⟨true, some 2, 0, 10, some 4, true, false⟩) = some 7
    ∧ ¬(7 ≤ 4) := by decide

/-- Claim C2 (amended): on every run and every exit path the server never
outlives the launcher — its death's timestamp is no later than the launcher's
exit and the structural trace invariant holds — and when the server opens the
port within the timeout and no interrupt occurs, the server's lifetime
temporally contains the scenario's execution window: spawn at time 0, the
test command runs from the port-readiness time to its exit, and the server
dies no earlier than that exit.  Under an interrupt during `TestRunning` the
kill cascade is concurrent, and the server may die up to a grace period
before a termination-resistant test command, so the containment does not
extend to that path. -/
theorem C2_server_lifetime_and_containment (cfg : LauncherConfig)
    (env : LauncherEnv) (r : Nat)
    (hs : env.spawnOk = true) (hr : env.readyAt = some r) (hrt : r ≤ cfg.timeout)
    (hpi : 1 ≤ cfg.pollInterval) (hni : env.interruptAt = none) :
    serverSpawnTime (runLauncher cfg env) = some 0
    ∧ (∃ tReady, testStartTime (runLauncher cfg env) = some tReady
        ∧ testEndTime (runLauncher cfg env) = some (tReady + env.testDuration)
        ∧ (∃ td te, serverDeadTime (runLauncher cfg env) = some td
            ∧ launcherExitTime (runLauncher cfg env) = some te
            ∧ tReady + env.testDuration ≤ td ∧ td ≤ te))
    ∧ (∀ cfg2 env2 td te, serverDeadTime (runLauncher cfg2 env2) = some td →
        launcherExitTime (runLauncher cfg2 env2) = some te → td ≤ te)
    ∧ (∀ cfg2 env2, lifecycleOk (runLauncher cfg2 env2) = true) := by
  have hb : (pollFrom cfg.timeout cfg.pollInterval env.readyAt (cfg.timeout + 1) 0).1
      = true := by
    rw [hr]
    exact (pollFrom_ready_succeeds cfg.timeout cfg.pollInterval r hrt hpi).1
  rcases hq : pollFrom cfg.timeout cfg.pollInterval env.readyAt (cfg.timeout + 1) 0
    with ⟨b, tR⟩
  rw [hq] at hb
  subst hb
  have hrun : runLauncher cfg env = normalPath cfg env tR := by
    simp only [runLauncher, hs, Bool.true_eq_false, if_false, hq, hni]
  refine ⟨?_, ⟨tR, ?_, ?_,
      ⟨cleanupEnd cfg.gracePeriod env.serverDiesGracefully (tR + env.testDuration),
       cleanupEnd cfg.gracePeriod env.serverDiesGracefully (tR + env.testDuration),
       ?_, ?_, ?_, le_refl _⟩⟩,
    (fun cfg2 env2 => serverDead_le_launcherExit cfg2 env2),
    (fun cfg2 env2 => lifecycleOk_runLauncher cfg2 env2)⟩
  · rw [hrun]; exact serverSpawnTime_normalPath cfg env tR
  · rw [hrun]; exact testStartTime_normalPath cfg env tR
  · rw [hrun]; exact testEndTime_normalPath cfg env tR
  · rw [hrun]; exact serverDeadTime_normalPath cfg env tR
  · rw [hrun]; exact launcherExitTime_normalPath cfg env tR
  · exact (cleanupEnd_bounds cfg.gracePeriod env.serverDiesGracefully
      (tR + env.testDuration)).1

/-- Witness for the amended C2 at a concrete run: server ready at time 3
against a 30s timeout, test command of duration 4, no interrupt, graceful
teardown. -/
theorem C2_server_lifetime_and_containment_witness :
    serverSpawnTime (runLauncher ⟨"php -S localhost:8000", 8000, 30, 1, 5⟩
        ⟨true, some 3, 7, 4, none, true, true⟩) = some 0
    ∧ (∃ tReady, testStartTime (runLauncher ⟨"php -S localhost:8000", 8000, 30, 1, 5⟩
          ⟨true, some 3, 7, 4, none, true, true⟩) = some tReady
        ∧ testEndTime (runLauncher ⟨"php -S localhost:8000", 8000, 30, 1, 5⟩
            ⟨true, some 3, 7, 4, none, true, true⟩) = some (tReady + 4)
        ∧ (∃ td te, serverDeadTime (runLauncher ⟨"php -S localhost:8000", 8000, 30, 1, 5⟩
              ⟨true, some 3, 7, 4, none, true, true⟩) = some td
            ∧ launcherExitTime (runLauncher ⟨"php -S localhost:8000", 8000, 30, 1, 5⟩
                ⟨true, some 3, 7, 4, none, true, true⟩) = some te
            ∧ tReady + 4 ≤ td ∧ td ≤ te))
    ∧ (∀ cfg2 env2 td te, serverDeadTime (runLauncher cfg2 env2) = some td →
        launcherExitTime (runLauncher cfg2 env2) = some te → td ≤ te)
    ∧ (∀ cfg2 env2, lifecycleOk (runLauncher cfg2 env2) = true) :=
  C2_server_lifetime_and_containment ⟨"php -S localhost:8000", 8000, 30, 1, 5⟩
    ⟨true, some 3, 7, 4, none, true, true⟩ 3 rfl rfl (by decide) (by decide) rfl

end WithServer
